import Mathlib

/-!
Verification of the agent-smith orchestrator core against its specification.

The Python sources under `src/agent_smith/` are shallowly embedded:

* pure text heuristics (`TutorAgent.evaluate_answer`,
  `CuratorAgent._score_resources`, `AgentOrchestrator._rewrite_future_plan_items`)
  become Lean functions over `String`, `List` and `ℚ`;
* the SQL-backed entities of `models.py` become record types whose database
  identifiers are `Option Int` (None until the row is inserted);
* the orchestrator operations of `orchestrator.py` become explicit
  state-passing functions over a `State` record holding the five tables,
  together with an inductive reachability relation;
* external effects (DuckDuckGo / Wikipedia / arXiv search, the vector index,
  the completion provider) are environment parameters; a search provider is a
  function returning `Except String (List SearchResult)`, mirroring the fact
  that the HTTP helpers in `tools/web.py` either return hits or raise.

Wall-clock timestamp columns (`created_at` / `updated_at`) are external
real-time inputs and are not modelled; no claim below depends on them.
-/

namespace AgentSmith

/-! ## Enumerations from `models.py` -/

/-- Lifecycle states for a learning goal (`models.GoalStatus`). -/
inductive GoalStatus
  | new
  | planning
  | active
  | complete
deriving DecidableEq, Repr

/-- Execution states for individual plan items (`models.PlanStatus`). -/
inductive PlanStatus
  | pending
  | inProgress
  | done
  | blocked
deriving DecidableEq, Repr

/-- Possible states for a quiz item (`models.QuizStatus`). -/
inductive QuizStatus
  | draft
  | delivered
  | answered
deriving DecidableEq, Repr

/-! ## Entity rows from `models.py` -/

/-- Row of `learning_goals` (`models.LearningGoal`). -/
structure GoalRow where
  id : Option Int
  title : String
  description : Option String
  learnerProfile : Option String
  status : GoalStatus
  targetDays : Option Int
deriving DecidableEq, Repr

/-- Row of `plan_items` (`models.PlanItem`). -/
structure PlanItemRow where
  id : Option Int
  goalId : Int
  dayNumber : Int
  sequence : Int
  task : String
  status : PlanStatus
  notes : Option String
  reflection : Option String
deriving DecidableEq, Repr

/-- Row of `resources` (`models.Resource`). Scores are embedded in `ℚ`. -/
structure ResourceRow where
  id : Option Int
  goalId : Int
  planItemId : Option Int
  title : String
  url : Option String
  snippet : Option String
  content : Option String
  source : Option String
  vectorId : Option String
  relevanceScore : Option ℚ
deriving DecidableEq, Repr

/-- Row of `quiz_items` (`models.QuizItem`). -/
structure QuizRow where
  id : Option Int
  goalId : Int
  dayNumber : Int
  question : String
  answer : String
  difficulty : Option String
  learnerAnswer : Option String
  isCorrect : Option Bool
  feedback : Option String
  status : QuizStatus
deriving DecidableEq, Repr

/-- Row of `episodes` (`models.Episode`). -/
structure EpisodeRow where
  id : Option Int
  goalId : Int
  dayNumber : Int
  plannerSummary : Option String
  researcherSummary : Option String
  curatorSummary : Option String
  tutorSummary : Option String
  reflection : Option String
deriving DecidableEq, Repr

/-! ## String primitives

Structurally recursive embeddings of the Python string operations the
sources use (`str.lower`, `str.split`, `str.strip`, slicing, `in`,
`str.join`, comparison), phrased over the character list of a `String` so
that every model function evaluates by kernel reduction. -/

/-- `str.lower()`: case-fold every character. -/
def lowerStr (s : String) : String :=
  ⟨s.data.map Char.toLower⟩

/-- Accumulator loop behind `str.split()` (no separator argument): split on
runs of whitespace, producing no empty tokens. -/
def wsSplit : List Char → List Char → List String
  | [], acc => if acc.isEmpty then [] else [String.mk acc.reverse]
  | c :: rest, acc =>
    if c.isWhitespace then
      if acc.isEmpty then wsSplit rest []
      else String.mk acc.reverse :: wsSplit rest []
    else wsSplit rest (c :: acc)

/-- `s.split()`: whitespace tokenization discarding empty tokens. -/
def pySplitWs (s : String) : List String :=
  wsSplit s.data []

/-- `s.strip()`: drop whitespace from both ends. -/
def pyStrip (s : String) : String :=
  ⟨((s.data.dropWhile Char.isWhitespace).reverse.dropWhile Char.isWhitespace).reverse⟩

/-- `s[:n]`: keep the first `n` characters. -/
def pyTake (n : ℕ) (s : String) : String :=
  ⟨s.data.take n⟩

/-- `s.split(".")[0]`: the text before the first dot (the whole string when
there is none). -/
def beforeDot (s : String) : String :=
  ⟨s.data.takeWhile (fun c => decide (c ≠ '.'))⟩

/-- Whether `pat` is an initial segment of `cs`. -/
def startsWithChars : List Char → List Char → Bool
  | [], _ => true
  | _ :: _, [] => false
  | p :: ps, c :: cs => decide (p = c) && startsWithChars ps cs

/-- Whether `pat` occurs contiguously in the character list. -/
def hasSubChars (pat : List Char) : List Char → Bool
  | [] => pat.isEmpty
  | c :: cs => startsWithChars pat (c :: cs) || hasSubChars pat cs

/-- Python's `pat in s`: substring containment. -/
def strContains (s pat : String) : Bool :=
  hasSubChars pat.data s.data

/-- `sep.join(l)`. -/
def joinWith (sep : String) (l : List String) : String :=
  ⟨List.intercalate sep.data (l.map String.data)⟩

/-- Computable lexicographic comparison on character lists (code-point
order, shorter prefix first), the order Python's `sorted` uses on `str`. -/
def charListLe : List Char → List Char → Bool
  | [], _ => true
  | _ :: _, [] => false
  | a :: as, b :: bs => if a = b then charListLe as bs else decide (a < b)

/-- Computable `a ≤ b` on strings. -/
def strLe (a b : String) : Bool :=
  charListLe a.data b.data

/-- The comparison relation used for sorting feedback tokens. -/
def strLeR (a b : String) : Prop :=
  strLe a b = true

instance : DecidableRel strLeR := fun a b => by
  unfold strLeR; infer_instance

/-! ## Tutor answer scoring (`agents/tutor.py`, `TutorAgent.evaluate_answer`) -/

/-- Whitespace tokenization after case folding: `s.lower().split()`. -/
def tokens (s : String) : List String :=
  pySplitWs (lowerStr s)

/-- The token set, as a duplicate-free list: `set(s.lower().split())`. -/
def tokenSet (s : String) : List String :=
  (tokens s).dedup

/-- Ascending lexicographic sort, the embedding of Python's `sorted`. -/
def sortStrings (l : List String) : List String :=
  l.insertionSort strLeR

/-- The overlap score `len(expected & given) / max(1, len(expected))`
computed on token sets (tutor.py lines 72-75). -/
def answerScore (expected given : String) : ℚ :=
  (((tokenSet expected).filter (fun t => t ∈ tokens given)).length : ℚ) /
    ((max 1 (tokenSet expected).length : ℕ) : ℚ)

/-- Tokens of `expected` absent from `given`: `expected_tokens - given_tokens`. -/
def missingTokens (expected given : String) : List String :=
  (tokenSet expected).filter (fun t => t ∉ tokens given)

/-- `TutorAgent.evaluate_answer` (tutor.py lines 68-80): returns
`(is_correct, feedback)`. -/
def evaluate_answer (expected given : String) : Bool × String :=
  let score := answerScore expected given
  let is_correct : Bool := decide (score ≥ (0.4 : ℚ))
  let feedback :=
    if is_correct then "Great job!"
    else "Focus on covering: " ++
      pyTake 120 (joinWith " " (sortStrings (missingTokens expected given)))
  (is_correct, feedback)

/-- Spec-worded restatement of `evaluateAnswer` (spec §4.5), phrased with
finite sets: tokenize both strings into sets, score by
`|expected ∩ given| / max(1, |expected|)`, compare against 0.4, and build the
feedback from the sorted missing tokens. Used only to compare against the
source embedding `evaluate_answer`. -/
def evaluateAnswerSpec (expected given : String) : Bool × String :=
  let e : Finset String := (tokens expected).toFinset
  let g : Finset String := (tokens given).toFinset
  let overlap : ℚ := ((e ∩ g).card : ℚ) / ((max 1 e.card : ℕ) : ℚ)
  let isCorrect : Bool := decide (overlap ≥ (0.4 : ℚ))
  let fb :=
    if isCorrect then "Great job!"
    else "Focus on covering: " ++
      pyTake 120 (joinWith " " ((e \ g).sort (fun a b => a ≤ b)))
  (isCorrect, fb)

/-! ## Curator scoring (`agents/curator.py`, `CuratorAgent._score_resources`) -/

/-- The body of `_score_resources`, with the running `enumerate` index made
explicit: resource at index `idx` receives `max(0.1, 1.0 - idx * 0.1)`. -/
def scoreResourcesFrom (idx : ℕ) : List ResourceRow → List ResourceRow
  | [] => []
  | r :: rs =>
      { r with relevanceScore := some (max (0.1 : ℚ) (1 - (idx : ℚ) * (0.1 : ℚ))) } ::
        scoreResourcesFrom (idx + 1) rs

/-- `CuratorAgent._score_resources` (curator.py lines 45-51). -/
def scoreResources (resources : List ResourceRow) : List ResourceRow :=
  scoreResourcesFrom 0 resources

/-! ## Search tools (`tools/web.py`) and the researcher (`agents/researcher.py`) -/

/-- Normalized representation of search hits (`web.SearchResult`). -/
structure SearchResult where
  title : String
  url : String
  snippet : String
  source : String
deriving DecidableEq, Repr

/-- Error taxonomy of the orchestrator boundary (spec §7): `notFound` embeds
the `ValueError` raised for missing goals/quizzes, `invalidState` the
`ValueError` raised by the researcher on an unsaved goal, and `network` an
uncaught provider exception carrying its message. -/
inductive OrchError
  | notFound
  | invalidState
  | network (msg : String)
deriving DecidableEq, Repr

/-- Environment of external search providers and the vector index. Each
provider either returns hits or raises (`Except.error` with the exception
message): `duckduckgo_search`, `wikipedia_search` and `arxiv_search` in
`tools/web.py` perform HTTP calls and contain no exception handling
(`wikipedia_search` even calls `raise_for_status`). `vectorIds` supplies the
identifier the vector index assigns to the resource at a given position
(`upsert_resources` derives it from a fresh uuid for unsaved rows). -/
structure WebEnv where
  duckduckgoSearch : String → ℕ → Except String (List SearchResult)
  wikipediaSearch : String → Except String (List SearchResult)
  arxivSearch : String → ℕ → Except String (List SearchResult)
  vectorIds : ℕ → String

/-- Trace entry for one external call made by the researcher. -/
inductive ProviderCall
  | duck (query : String) (maxResults : ℕ)
  | wiki (topic : String)
  | arxiv (query : String) (maxResults : ℕ)
  | vectorUpsert (count : ℕ)
deriving DecidableEq, Repr

/-- Building one `Resource` from a search hit (researcher.py lines 37-48);
`goal_id = item.goal_id or goal.id` falls back to the goal id when the
item's foreign key is the falsy `0`. -/
def hitResource (gid : Int) (item : PlanItemRow) (hit : SearchResult) : ResourceRow :=
  { id := none
    goalId := if item.goalId = 0 then gid else item.goalId
    planItemId := item.id
    title := hit.title
    url := some hit.url
    snippet := some hit.snippet
    content := some hit.snippet
    source := some hit.source
    vectorId := none
    relevanceScore := none }

/-- Loop body of `ResearcherAgent.run` for a single plan item
(researcher.py lines 28-48): a general-web query on goal title + task
(top 3), an encyclopedia query on the goal title, and a scholarly query only
when the task text contains one of the keywords. Any provider exception
propagates; the second component records the provider calls issued. -/
def researchItem (web : WebEnv) (goalTitle : String) (gid : Int) (item : PlanItemRow) :
    Except String (List ResourceRow) × List ProviderCall :=
  let query := pyStrip (goalTitle ++ " " ++ item.task)
  match web.duckduckgoSearch query 3 with
  | .error e => (.error e, [.duck query 3])
  | .ok duckHits =>
    match web.wikipediaSearch goalTitle with
    | .error e => (.error e, [.duck query 3, .wiki goalTitle])
    | .ok wikiHits =>
      if ["paper", "theory", "research"].any (fun k => strContains (lowerStr item.task) k) then
        match web.arxivSearch goalTitle 1 with
        | .error e => (.error e, [.duck query 3, .wiki goalTitle, .arxiv goalTitle 1])
        | .ok arxivHits =>
            (.ok ((duckHits ++ wikiHits ++ arxivHits).map (hitResource gid item)),
             [.duck query 3, .wiki goalTitle, .arxiv goalTitle 1])
      else
        (.ok ((duckHits ++ wikiHits).map (hitResource gid item)),
         [.duck query 3, .wiki goalTitle])

/-- The `for item in plan_items` loop of `ResearcherAgent.run`, accumulating
resources and the call trace; the first provider exception aborts the loop. -/
def researchLoop (web : WebEnv) (goalTitle : String) (gid : Int) :
    List PlanItemRow → Except String (List ResourceRow) × List ProviderCall
  | [] => (.ok [], [])
  | item :: rest =>
    match researchItem web goalTitle gid item with
    | (.error e, callLog) => (.error e, callLog)
    | (.ok rs, callLog) =>
      match researchLoop web goalTitle gid rest with
      | (.error e, callLog2) => (.error e, callLog ++ callLog2)
      | (.ok rs2, callLog2) => (.ok (rs ++ rs2), callLog ++ callLog2)

/-- `upsert_resources` (tools/vector.py lines 73-97): assigns every resource
its vector id, and issues one collection upsert unless the list is empty. -/
def upsertResources (vectorIds : ℕ → String) (rs : List ResourceRow) :
    List ResourceRow × List ProviderCall :=
  let assigned := (rs.zip (List.range rs.length)).map
    (fun p => { p.1 with vectorId := some (vectorIds p.2) })
  (assigned, if rs.length = 0 then [] else [.vectorUpsert rs.length])

/-- `ResearcherAgent.run` (researcher.py lines 23-51): fails with
`invalidState` when the goal carries no persisted identity, otherwise maps
every plan item to provider queries and upserts the collected resources into
the vector index. -/
def researcherRun (web : WebEnv) (goal : GoalRow) (items : List PlanItemRow) :
    Except OrchError (List ResourceRow) × List ProviderCall :=
  match goal.id with
  | none => (.error .invalidState, [])
  | some gid =>
    match researchLoop web goal.title gid items with
    | (.error e, callLog) => (.error (.network e), callLog)
    | (.ok rs, callLog) =>
      let (assigned, upsertLog) := upsertResources web.vectorIds rs
      (.ok assigned, callLog ++ upsertLog)

/-! ## Orchestrator (`orchestrator.py`) -/

/-- A record returned by the Planner: the orchestrator reads
`payload["sequence"]`, `str(payload["task"])` and
`str(payload.get("notes", ""))` (orchestrator.py lines 85-95). -/
structure PlanPayload where
  sequence : Int
  task : String
  notes : String
deriving DecidableEq, Repr

/-- A record returned by the Tutor: `payload["question"]`,
`payload["answer"]`, `payload.get("difficulty")`
(orchestrator.py lines 119-129). -/
structure QuizPayload where
  question : String
  answer : String
  difficulty : Option String
deriving DecidableEq, Repr

/-- Persistent state: the five tables plus the per-table id sequences the
database assigns on insert. -/
structure State where
  goals : List GoalRow
  planItems : List PlanItemRow
  resources : List ResourceRow
  quizzes : List QuizRow
  episodes : List EpisodeRow
  nextGoalId : Int
  nextPlanId : Int
  nextResourceId : Int
  nextQuizId : Int
  nextEpisodeId : Int
deriving DecidableEq, Repr

/-- Empty database, id sequences starting at 1. -/
def initialState : State :=
  { goals := [], planItems := [], resources := [], quizzes := [], episodes := []
    nextGoalId := 1, nextPlanId := 1, nextResourceId := 1, nextQuizId := 1
    nextEpisodeId := 1 }

/-- Environment of one `run_day` invocation: the planner payload list, the
search-provider behaviors, and the completion texts the curator and the
reflection prompt receive back from the completion provider, plus the tutor's
parsed quiz payloads. -/
structure RunEnv where
  plannerPayloads : List PlanPayload
  web : WebEnv
  curatorResponse : String
  quizPayloads : List QuizPayload
  reflectionResponse : String

/-- `AgentOrchestrator.create_goal` (orchestrator.py lines 37-55): inserts a
goal with `status=new` and returns the refreshed row. -/
def createGoal (title : String) (description learnerProfile : Option String)
    (targetDays : Option Int) (s : State) : State × GoalRow :=
  let goal : GoalRow :=
    { id := some s.nextGoalId, title, description, learnerProfile
      status := .new, targetDays }
  ({ s with goals := s.goals ++ [goal], nextGoalId := s.nextGoalId + 1 }, goal)

/-- `AgentOrchestrator.get_goal` (orchestrator.py lines 57-62). -/
def getGoal (goalId : Int) (s : State) : State × Except OrchError GoalRow :=
  match s.goals.find? (fun g => decide (g.id = some goalId)) with
  | none => (s, .error .notFound)
  | some g => (s, .ok g)

/-- SQL `ORDER BY day_number, sequence` comparison used by `get_plan`. -/
def planItemLe (a b : PlanItemRow) : Prop :=
  a.dayNumber < b.dayNumber ∨ (a.dayNumber = b.dayNumber ∧ a.sequence ≤ b.sequence)

instance : DecidableRel planItemLe := fun a b => by
  unfold planItemLe; infer_instance

/-- `AgentOrchestrator.get_plan` (orchestrator.py lines 64-69). -/
def getPlan (goalId : Int) (dayNumber : Option Int) (s : State) :
    State × List PlanItemRow :=
  let rows := s.planItems.filter (fun it =>
    decide (it.goalId = goalId) &&
      match dayNumber with
      | none => true
      | some d => decide (it.dayNumber = d))
  (s, rows.insertionSort planItemLe)

/-- `AgentOrchestrator.get_quiz_for_day` (orchestrator.py lines 154-157). -/
def getQuizForDay (goalId dayNumber : Int) (s : State) : State × List QuizRow :=
  (s, s.quizzes.filter (fun q => decide (q.goalId = goalId) && decide (q.dayNumber = dayNumber)))

/-- `AgentOrchestrator.submit_quiz_answer` (orchestrator.py lines 159-172):
look the quiz up by primary key, store the learner's answer, score it with
`TutorAgent.evaluate_answer(quiz.answer, answer)` and mark the row answered. -/
def submitQuizAnswer (quizId : Int) (answer : String) (s : State) :
    State × Except OrchError QuizRow :=
  match s.quizzes.find? (fun q => decide (q.id = some quizId)) with
  | none => (s, .error .notFound)
  | some quiz =>
    let scored := evaluate_answer quiz.answer answer
    let quiz' : QuizRow :=
      { quiz with
        learnerAnswer := some answer
        isCorrect := some scored.1
        feedback := some scored.2
        status := .answered }
    ({ s with quizzes := s.quizzes.map (fun q => if q.id = some quizId then quiz' else q) },
     .ok quiz')

/-! ### The `run_day` pipeline (orchestrator.py lines 72-152) -/

/-- Plan items built from the planner payloads (orchestrator.py lines 85-95)
with the ids the insert assigns: `sequence` is copied from the payload,
`notes` is the payload's notes string, `status` is pending. -/
def mkPlanItemsFrom (goalId dayNumber nextId : Int) :
    List PlanPayload → List PlanItemRow
  | [] => []
  | p :: ps =>
      { id := some nextId, goalId, dayNumber, sequence := p.sequence
        task := p.task, status := .pending, notes := some p.notes
        reflection := none } :: mkPlanItemsFrom goalId dayNumber (nextId + 1) ps

/-- Quiz items built from the tutor payloads (orchestrator.py lines 119-129):
`status=delivered`, answer fields null. -/
def mkQuizItemsFrom (goalId dayNumber nextId : Int) :
    List QuizPayload → List QuizRow
  | [] => []
  | p :: ps =>
      { id := some nextId, goalId, dayNumber, question := p.question
        answer := p.answer, difficulty := p.difficulty, learnerAnswer := none
        isCorrect := none, feedback := none, status := .delivered } ::
        mkQuizItemsFrom goalId dayNumber (nextId + 1) ps

/-- Ids assigned to the researcher's resources on insert. -/
def assignResourceIds (nextId : Int) : List ResourceRow → List ResourceRow
  | [] => []
  | r :: rs => { r with id := some nextId } :: assignResourceIds (nextId + 1) rs

/-- Whether a plan item is a future item of this goal:
`PlanItem.goal_id == goal_id, PlanItem.day_number > day_number`
(orchestrator.py line 203). -/
def isFutureItem (goalId dayNumber : Int) (it : PlanItemRow) : Bool :=
  decide (it.goalId = goalId) && decide (dayNumber < it.dayNumber)

/-- `reflection.split(".")[0].strip()` (orchestrator.py line 209). -/
def firstSentence (reflection : String) : String :=
  pyStrip (beforeDot reflection)

/-- The audit note `"Reflection applied on day <N>: <reflection[:200]>"`
(orchestrator.py line 213). -/
def reflectionNote (dayNumber : Int) (reflection : String) : String :=
  "Reflection applied on day " ++ toString dayNumber ++ ": " ++ pyTake 200 reflection

/-- `item.notes = f"{(item.notes or '').strip()}\n{note}".strip()`
(orchestrator.py line 214). -/
def appendNote (oldNotes : Option String) (note : String) : String :=
  pyStrip (pyStrip (oldNotes.getD "") ++ "\n" ++ note)

/-- Loop body of `_rewrite_future_plan_items` (orchestrator.py lines
210-215) applied to a single row; non-future rows are left untouched (they
are outside the query's result set). -/
def rewriteItem (goalId dayNumber : Int) (reflection : String)
    (it : PlanItemRow) : PlanItemRow :=
  if isFutureItem goalId dayNumber it then
    let fs := firstSentence reflection
    { it with
      task := if fs ≠ "" then it.task ++ " (Focus: " ++ pyTake 60 fs ++ ")" else it.task
      notes := some (appendNote it.notes (reflectionNote dayNumber reflection)) }
  else it

/-- `AgentOrchestrator._rewrite_future_plan_items` (orchestrator.py lines
192-216) acting on the `plan_items` table: early return when the future-item
query is empty or the reflection is empty, otherwise update every future
row. -/
def rewriteFuturePlanItems (items : List PlanItemRow) (goalId dayNumber : Int)
    (reflection : String) : List PlanItemRow :=
  if (items.filter (isFutureItem goalId dayNumber)).length = 0 ∨ reflection = "" then
    items
  else
    items.map (rewriteItem goalId dayNumber reflection)

/-- State after the planner stage commit (orchestrator.py lines 84-103):
the new plan items are inserted and the goal is set active. -/
def planStage (env : RunEnv) (goalId dayNumber : Int) (s : State) : State :=
  { s with
    planItems := s.planItems ++ mkPlanItemsFrom goalId dayNumber s.nextPlanId env.plannerPayloads
    goals := s.goals.map (fun g => if g.id = some goalId then { g with status := .active } else g)
    nextPlanId := s.nextPlanId + env.plannerPayloads.length }

/-- `planner_summary` line for one plan item: `f"{item.sequence}. {item.task}"`. -/
def planLine (it : PlanItemRow) : String :=
  toString it.sequence ++ ". " ++ it.task

/-- Stages 3-8 of `run_day` (orchestrator.py lines 105-152), entered after the
researcher returned: persist resources, apply the curator's scores, persist
quiz items, rewrite future plan items with the reflection, and persist the
episode. -/
def laterStages (env : RunEnv) (goalId dayNumber : Int) (s1 : State)
    (resList : List ResourceRow) (newItems : List PlanItemRow) :
    State × Except OrchError EpisodeRow :=
  let newResources := assignResourceIds s1.nextResourceId resList
  let s2 := { s1 with
    resources := s1.resources ++ newResources
    nextResourceId := s1.nextResourceId + resList.length }
  let summary := pyStrip env.curatorResponse
  let s3 := { s2 with resources := s1.resources ++ scoreResources newResources }
  let newQuizzes := mkQuizItemsFrom goalId dayNumber s3.nextQuizId env.quizPayloads
  let s4 := { s3 with
    quizzes := s3.quizzes ++ newQuizzes
    nextQuizId := s3.nextQuizId + env.quizPayloads.length }
  let reflection := pyStrip env.reflectionResponse
  let s5 := { s4 with
    planItems := rewriteFuturePlanItems s4.planItems goalId dayNumber reflection }
  let episode : EpisodeRow :=
    { id := some s5.nextEpisodeId, goalId, dayNumber
      plannerSummary := some (joinWith "\n" (newItems.map planLine))
      researcherSummary := some ("Curated " ++ toString resList.length ++ " resources")
      curatorSummary := some summary
      tutorSummary := some (joinWith "; " (newQuizzes.map (fun q => q.question)))
      reflection := some reflection }
  let s6 := { s5 with
    episodes := s5.episodes ++ [episode]
    nextEpisodeId := s5.nextEpisodeId + 1 }
  (s6, .ok episode)

/-- `AgentOrchestrator.run_day` (orchestrator.py lines 72-152). The goal is
loaded (NotFound when absent); the planner stage commits plan items and sets
the goal active; a researcher failure propagates, leaving the planner stage's
commit in place; otherwise the remaining stages commit and the persisted
episode is returned. -/
def runDay (env : RunEnv) (goalId dayNumber : Int) (s : State) :
    State × Except OrchError EpisodeRow :=
  match s.goals.find? (fun g => decide (g.id = some goalId)) with
  | none => (s, .error .notFound)
  | some goal =>
    let newItems := mkPlanItemsFrom goalId dayNumber s.nextPlanId env.plannerPayloads
    let s1 := planStage env goalId dayNumber s
    match researcherRun env.web { goal with status := .active } newItems with
    | (.error e, _) => (s1, .error e)
    | (.ok resList, _) => laterStages env goalId dayNumber s1 resList newItems

/-! ### Reachability -/

/-- One orchestrator operation applied to the store (spec §6: the operations
exposed upward). Read operations pass the state through unchanged. -/
inductive Step : State → State → Prop
  | create (title : String) (description learnerProfile : Option String)
      (targetDays : Option Int) (s : State) :
      Step s (createGoal title description learnerProfile targetDays s).1
  | read (goalId : Int) (s : State) : Step s (getGoal goalId s).1
  | readPlan (goalId : Int) (dayNumber : Option Int) (s : State) :
      Step s (getPlan goalId dayNumber s).1
  | readQuiz (goalId dayNumber : Int) (s : State) :
      Step s (getQuizForDay goalId dayNumber s).1
  | run (env : RunEnv) (goalId dayNumber : Int) (s : State) :
      Step s (runDay env goalId dayNumber s).1
  | submit (quizId : Int) (answer : String) (s : State) :
      Step s (submitQuizAnswer quizId answer s).1

/-- States reachable from the empty store by orchestrator operations. -/
inductive Reach : State → Prop
  | init : Reach initialState
  | step {s s' : State} : Reach s → Step s s' → Reach s'

/-! ## Auxiliary predicates for the stated properties -/

/-- Modelled from the spec: the Planner agent (`agents/planner.py`) is
imported by the orchestrator but is not among the provided sources. Spec §4.2
fixes its output contract — an ordered sequence of `{sequence, task, notes}`
records with `sequence` starting at 1 and contiguous — i.e. the payload at
0-based position `i` carries sequence `i + 1`. -/
def PlannerOk (payloads : List PlanPayload) : Prop :=
  ∀ (i : ℕ) (h : i < payloads.length), (payloads.get ⟨i, h⟩).sequence = (i : ℤ) + 1

/-- Position of a goal status along `new → planning → active → complete`. -/
def statusRank : GoalStatus → ℕ
  | .new => 0
  | .planning => 1
  | .active => 2
  | .complete => 3

/-- Invariant on the goals table: statuses assigned by the code are only
`new` and `active`, ids are distinct, and every id is a value below the id
sequence. -/
def GoalInv (s : State) : Prop :=
  (∀ g ∈ s.goals, g.status = .new ∨ g.status = .active) ∧
    (s.goals.map (fun g => g.id)).Nodup ∧
    ∀ g ∈ s.goals, ∃ n : Int, g.id = some n ∧ n < s.nextGoalId

/-- Invariant on the quiz table: a row is `answered` exactly when a learner
answer is stored, and rows are only ever `delivered` or `answered`. -/
def QuizInv (s : State) : Prop :=
  ∀ q ∈ s.quizzes,
    (q.status = .answered ↔ q.learnerAnswer ≠ none) ∧
      (q.status = .delivered ∨ q.status = .answered)

/-! ## Concrete fixtures for closed instances -/

/-- Search environment in which every provider succeeds; the encyclopedia
returns one hit. -/
def stubWebEnv : WebEnv :=
  { duckduckgoSearch := fun _ _ => .ok []
    wikipediaSearch := fun _ =>
      .ok [{ title := "General relativity", url := "https://w/GR", snippet := "curved spacetime",
             source := "wikipedia" }]
    arxivSearch := fun _ _ => .ok []
    vectorIds := fun i => "vec-" ++ toString i }

/-- Search environment whose encyclopedia provider raises a network error. -/
def failingWebEnv : WebEnv :=
  { duckduckgoSearch := fun _ _ => .ok []
    wikipediaSearch := fun _ => .error "connect timeout"
    arxivSearch := fun _ _ => .ok []
    vectorIds := fun i => "vec-" ++ toString i }

/-- A fixed `run_day` environment. -/
def stubRunEnv : RunEnv :=
  { plannerPayloads := [{ sequence := 1, task := "Study tensors", notes := "" }]
    web := stubWebEnv
    curatorResponse := " A summary. "
    quizPayloads := [{ question := "Q1", answer := "space time continuum",
                       difficulty := some "medium" }]
    reflectionResponse := "Focus on basics. More practice." }

/-- Store holding one goal. -/
def exGoalState : State :=
  (createGoal "General Relativity" none none none initialState).1

/-- Store after running day 1 of that goal. -/
def exRunState : State :=
  (runDay stubRunEnv 1 1 exGoalState).1

/-- The quiz row `run_day` has delivered in `exRunState`. -/
def exQuizRow : QuizRow :=
  { id := some 1, goalId := 1, dayNumber := 1, question := "Q1",
    answer := "space time continuum", difficulty := some "medium",
    learnerAnswer := none, isCorrect := none, feedback := none,
    status := .delivered }

/-- A goal row without a persisted identity. -/
def unsavedGoal : GoalRow :=
  { id := none, title := "Quantum computing", description := none,
    learnerProfile := none, status := .new, targetDays := none }

/-- A persisted goal row used in researcher instances. -/
def savedGoal : GoalRow :=
  { id := some 1, title := "general relativity", description := none,
    learnerProfile := none, status := .active, targetDays := none }

/-- A plan item row used in researcher instances. -/
def savedPlanItem : PlanItemRow :=
  { id := some 1, goalId := 1, dayNumber := 1, sequence := 1,
    task := "read intro", status := .pending, notes := some "",
    reflection := none }

/-- A future-day plan item used in reflection-rewrite instances. -/
def futurePlanItem : PlanItemRow :=
  { id := some 7, goalId := 3, dayNumber := 2, sequence := 1,
    task := "Review notes", status := .pending, notes := none,
    reflection := none }

/-- An unscored resource row used in curator instances. -/
def rawResource (t : String) : ResourceRow :=
  { id := none, goalId := 1, planItemId := some 1, title := t,
    url := some "https://w", snippet := some "sn", content := some "sn",
    source := some "wikipedia", vectorId := none, relevanceScore := none }

/-- The goal row created by `createGoal` in `exGoalState`. -/
def exGoalRow : GoalRow :=
  { id := some 1, title := "General Relativity", description := none,
    learnerProfile := none, status := .new, targetDays := none }

/-! ## Supporting lemmas -/

theorem scoreResourcesFrom_map (k : ℕ) (rs : List ResourceRow) :
    (scoreResourcesFrom k rs).map (fun r => r.relevanceScore) =
      (List.range rs.length).map
        (fun i => some (max (0.1 : ℚ) (1 - ((k + i : ℕ) : ℚ) * 0.1))) := by
  induction rs generalizing k with
  | nil => rfl
  | cons r rs ih =>
    simp only [scoreResourcesFrom, List.map_cons, List.length_cons,
      List.range_succ_eq_map, ih (k + 1), List.map_map]
    congr 1
    apply List.map_congr_left
    intro i _
    simp only [Function.comp]
    congr 2
    push_cast
    ring

/-! ## Claim C7 -/

/-- C7: the Curator assigns the resource at 0-based position `index` the
relevance score `max(0.1, 1.0 - 0.1 * index)`; the assigned scores are
non-increasing in iteration order and never drop below the floor 0.1. -/
theorem score_resources_positional_decay (rs : List ResourceRow) :
    (scoreResources rs).map (fun r => r.relevanceScore) =
      (List.range rs.length).map
        (fun i : ℕ => some (max (0.1 : ℚ) (1 - (i : ℚ) * 0.1))) ∧
    (∀ i j : ℕ, i ≤ j →
      max (0.1 : ℚ) (1 - (j : ℚ) * 0.1) ≤ max (0.1 : ℚ) (1 - (i : ℚ) * 0.1)) ∧
    ∀ i : ℕ, (0.1 : ℚ) ≤ max (0.1 : ℚ) (1 - (i : ℚ) * 0.1) := by
  refine ⟨?_, ?_, fun i => le_max_left _ _⟩
  · rw [scoreResources, scoreResourcesFrom_map 0 rs]
    apply List.map_congr_left
    intro i _
    norm_num
  · intro i j hij
    refine max_le_max le_rfl (sub_le_sub_left ?_ 1)
    have : (i : ℚ) ≤ (j : ℚ) := by exact_mod_cast hij
    nlinarith

/-- Closed instance of C7's theorem: two concrete resources receive scores
1.0 and 0.9, and the positional formula is antitone between positions 0
and 1. -/
theorem score_resources_positional_decay_witness :
    (scoreResources [rawResource "A", rawResource "B"]).map (fun r => r.relevanceScore) =
      (List.range 2).map (fun i : ℕ => some (max (0.1 : ℚ) (1 - (i : ℚ) * 0.1))) ∧
    max (0.1 : ℚ) (1 - (1 : ℕ) * 0.1) ≤ max (0.1 : ℚ) (1 - (0 : ℕ) * 0.1) :=
  ⟨(score_resources_positional_decay [rawResource "A", rawResource "B"]).1,
   (score_resources_positional_decay []).2.1 0 1 (by norm_num)⟩

/-! ## Claim C10 -/

/-- C10: when the expected answer yields no whitespace tokens, the overlap
score is `0 / max(1, 0) = 0`, below the 0.4 threshold, so `evaluate_answer`
can never return correct. -/
theorem evaluate_answer_empty_expected (expected given : String)
    (h : tokens expected = []) :
    answerScore expected given = 0 ∧ (evaluate_answer expected given).1 = false := by
  have hts : tokenSet expected = [] := by simp [tokenSet, h]
  have hsc : answerScore expected given = 0 := by simp [answerScore, hts]
  refine ⟨hsc, ?_⟩
  simp only [evaluate_answer, hsc]
  rw [decide_eq_false (by norm_num : ¬ ((0 : ℚ) ≥ 0.4))]

/-- Closed instance of C10's theorem at a whitespace-only expected answer. -/
theorem evaluate_answer_empty_expected_witness :
    tokens "   " = [] ∧ (evaluate_answer "   " "any answer at all").1 = false :=
  ⟨by decide, (evaluate_answer_empty_expected "   " "any answer at all" (by decide)).2⟩

/-! ## Claim C2 -/

/-- C2: `run_day` on a goal id that matches no stored goal fails with
NotFound and leaves the state exactly as it was: no plan item, resource,
quiz item or episode is created, and nothing is modified. -/
theorem run_day_missing_goal (env : RunEnv) (goalId dayNumber : Int) (s : State)
    (h : ∀ g ∈ s.goals, g.id ≠ some goalId) :
    runDay env goalId dayNumber s = (s, .error .notFound) := by
  have hf : s.goals.find? (fun g => decide (g.id = some goalId)) = none := by
    rw [List.find?_eq_none]
    intro g hg
    simpa using h g hg
  simp [runDay, hf]

/-- Closed instance of C2's theorem: running day 1 of the absent goal 99
errors and changes nothing. -/
theorem run_day_missing_goal_witness :
    (∀ g ∈ exGoalState.goals, g.id ≠ some 99) ∧
      runDay stubRunEnv 99 1 exGoalState = (exGoalState, .error .notFound) :=
  ⟨by decide, run_day_missing_goal stubRunEnv 99 1 exGoalState (by decide)⟩

/-! ## Claim C8 -/

/-- C8: running the researcher on a goal without a persisted identity fails
with InvalidState before any search-provider or vector-index call (the call
trace is empty) and produces no resources. -/
theorem researcher_requires_persisted_goal (web : WebEnv) (goal : GoalRow)
    (items : List PlanItemRow) (h : goal.id = none) :
    researcherRun web goal items = (.error .invalidState, []) := by
  simp [researcherRun, h]

/-- Closed instance of C8's theorem on an unsaved goal. -/
theorem researcher_requires_persisted_goal_witness :
    unsavedGoal.id = none ∧
      researcherRun stubWebEnv unsavedGoal [savedPlanItem] = (.error .invalidState, []) :=
  ⟨rfl, researcher_requires_persisted_goal stubWebEnv unsavedGoal [savedPlanItem] rfl⟩

/-! ## Claim C4 -/

/-- C4 (amended): the researcher wraps no provider call in error handling,
so a network failure raised by the general-web provider, or by the
encyclopedia provider after a successful general-web call, propagates out of
the researcher as a network error and aborts the run instead of degrading to
an empty result. -/
theorem researcher_propagates_provider_errors (web : WebEnv) (goal : GoalRow)
    (gid : Int) (item : PlanItemRow) (rest : List PlanItemRow) (msg : String)
    (hid : goal.id = some gid) :
    (web.duckduckgoSearch (pyStrip (goal.title ++ " " ++ item.task)) 3 = .error msg →
      (researcherRun web goal (item :: rest)).1 = .error (.network msg)) ∧
    ∀ duckHits,
      web.duckduckgoSearch (pyStrip (goal.title ++ " " ++ item.task)) 3 = .ok duckHits →
      web.wikipediaSearch goal.title = .error msg →
      (researcherRun web goal (item :: rest)).1 = .error (.network msg) := by
  constructor
  · intro hduck
    simp [researcherRun, hid, researchLoop, researchItem, hduck]
  · intro duckHits hduck hwiki
    simp [researcherRun, hid, researchLoop, researchItem, hduck, hwiki]

/-- Closed instance of C4's amended theorem: a failing encyclopedia provider
aborts the researcher. -/
theorem researcher_propagates_provider_errors_witness :
    savedGoal.id = some 1 ∧
    failingWebEnv.duckduckgoSearch
      (pyStrip (savedGoal.title ++ " " ++ savedPlanItem.task)) 3 = .ok [] ∧
    failingWebEnv.wikipediaSearch savedGoal.title = .error "connect timeout" ∧
    (researcherRun failingWebEnv savedGoal [savedPlanItem]).1 =
      .error (.network "connect timeout") :=
  ⟨rfl, rfl, rfl,
    (researcher_propagates_provider_errors failingWebEnv savedGoal 1 savedPlanItem []
        "connect timeout" rfl).2 [] rfl rfl⟩

/-- C4 counterexample: with the general-web provider returning no hits and
the encyclopedia provider raising a transient network error, the researcher
returns that error — it does not degrade the failed provider to an empty
contribution (which would have produced `.ok []` here), contradicting the
claim that a provider failure cannot abort the run. -/
theorem researcher_provider_failure_aborts :
    (researcherRun failingWebEnv savedGoal [savedPlanItem]).1 =
      .error (.network "connect timeout") ∧
    (researcherRun failingWebEnv savedGoal [savedPlanItem]).1 ≠ .ok [] := by
  have h : (researcherRun failingWebEnv savedGoal [savedPlanItem]).1 =
      .error (.network "connect timeout") := rfl
  refine ⟨h, ?_⟩
  rw [h]
  exact fun hh => Except.noConfusion hh

/-! ## Claim C1 -/

theorem runDay_ok_planItems {env : RunEnv} {goalId dayNumber : Int}
    {s s' : State} {ep : EpisodeRow}
    (h : runDay env goalId dayNumber s = (s', .ok ep)) :
    s'.planItems =
      rewriteFuturePlanItems
        (s.planItems ++ mkPlanItemsFrom goalId dayNumber s.nextPlanId env.plannerPayloads)
        goalId dayNumber (pyStrip env.reflectionResponse) := by
  unfold runDay at h
  cases hf : s.goals.find? (fun g => decide (g.id = some goalId)) with
  | none =>
    rw [hf] at h
    simp at h
  | some goal =>
    rw [hf] at h
    dsimp only at h
    rcases hr : researcherRun env.web { goal with status := GoalStatus.active }
        (mkPlanItemsFrom goalId dayNumber s.nextPlanId env.plannerPayloads) with ⟨res, lg⟩
    rw [hr] at h
    cases res with
    | error e => simp at h
    | ok resList =>
      dsimp only at h
      simp only [laterStages] at h
      have hs : s' = _ := (Prod.mk.injEq _ _ _ _ ▸ h).1.symm
      rw [hs]
      simp [planStage]

/-- C1 (amended): after `run_day(goalId, N)` completes, the plan-item table
is the result of `_rewrite_future_plan_items` applied to the table holding
the old rows plus the rows created for day `N`; the rewrite is a no-op when
there is no future item or the reflection is empty, and otherwise every
future item (`day_number > N` for this goal) has the line
`"Reflection applied on day N: <reflection, ≤200 chars>"` joined (with a
newline, after stripping) onto its notes, and — only when the first sentence
of the reflection (the text before the first `"."`, stripped) is non-empty —
the string `" (Focus: <first sentence, ≤60 chars>)"` appended to its task;
when that first sentence is empty the task is left unchanged; non-future
items are never touched. -/
theorem rewrite_future_plan_items_spec (items : List PlanItemRow)
    (goalId dayNumber : Int) (reflection : String) :
    (reflection = "" → rewriteFuturePlanItems items goalId dayNumber reflection = items) ∧
    ((items.filter (isFutureItem goalId dayNumber)).length = 0 →
      rewriteFuturePlanItems items goalId dayNumber reflection = items) ∧
    (reflection ≠ "" → (items.filter (isFutureItem goalId dayNumber)).length ≠ 0 →
      rewriteFuturePlanItems items goalId dayNumber reflection =
        items.map (rewriteItem goalId dayNumber reflection)) ∧
    (∀ it, isFutureItem goalId dayNumber it = false →
      rewriteItem goalId dayNumber reflection it = it) ∧
    (∀ it, isFutureItem goalId dayNumber it = true → firstSentence reflection ≠ "" →
      rewriteItem goalId dayNumber reflection it =
        { it with
          task := it.task ++ " (Focus: " ++ pyTake 60 (firstSentence reflection) ++ ")"
          notes := some (appendNote it.notes (reflectionNote dayNumber reflection)) }) ∧
    (∀ it, isFutureItem goalId dayNumber it = true → firstSentence reflection = "" →
      rewriteItem goalId dayNumber reflection it =
        { it with notes := some (appendNote it.notes (reflectionNote dayNumber reflection)) }) ∧
    ∀ (env : RunEnv) (s s' : State) (ep : EpisodeRow),
      runDay env goalId dayNumber s = (s', .ok ep) →
      s'.planItems =
        rewriteFuturePlanItems
          (s.planItems ++ mkPlanItemsFrom goalId dayNumber s.nextPlanId env.plannerPayloads)
          goalId dayNumber (pyStrip env.reflectionResponse) := by
  refine ⟨?_, ?_, ?_, ?_, ?_, ?_, fun env s s' ep h => runDay_ok_planItems h⟩
  · intro h
    simp [rewriteFuturePlanItems, h]
  · intro h
    simp [rewriteFuturePlanItems, h]
  · intro h1 h2
    rw [rewriteFuturePlanItems, if_neg]
    push_neg
    exact ⟨h2, h1⟩
  · intro it h
    simp [rewriteItem, h]
  · intro it h hfs
    simp [rewriteItem, h, hfs]
  · intro it h hfs
    simp [rewriteItem, h, hfs]

/-- C1 counterexample: the reflection `". Keep practicing."` is non-empty
and `futurePlanItem` is a future item of goal 3 seen from day 1, so the
claim as stated requires its task to receive a `" (Focus: ...)"` suffix;
the code instead leaves the task untouched (the text before the first dot
strips to the empty string) while still rewriting the notes, so the run is
not a no-op either. -/
theorem rewrite_future_no_focus_suffix :
    ". Keep practicing." ≠ "" ∧
    isFutureItem 3 1 futurePlanItem = true ∧
    (rewriteFuturePlanItems [futurePlanItem] 3 1 ". Keep practicing.").map
        (fun it => it.task) = ["Review notes"] ∧
    (rewriteFuturePlanItems [futurePlanItem] 3 1 ". Keep practicing.").map
        (fun it => it.notes) = [some "Reflection applied on day 1: . Keep practicing."] :=
  ⟨by decide, by decide, by decide, by decide⟩

/-- Closed instance of C1's amended theorem: with a reflection whose first
sentence is non-empty, a future item receives both the focus suffix and the
notes line. -/
theorem rewrite_future_plan_items_spec_witness :
    isFutureItem 3 1 futurePlanItem = true ∧
    firstSentence "Spend more time on proofs. Keep practicing." ≠ "" ∧
    rewriteItem 3 1 "Spend more time on proofs. Keep practicing." futurePlanItem =
      { futurePlanItem with
        task := futurePlanItem.task ++ " (Focus: " ++
          pyTake 60 (firstSentence "Spend more time on proofs. Keep practicing.") ++ ")"
        notes := some (appendNote futurePlanItem.notes
          (reflectionNote 1 "Spend more time on proofs. Keep practicing.")) } :=
  ⟨by decide, by decide,
    (rewrite_future_plan_items_spec [futurePlanItem] 3 1
        "Spend more time on proofs. Keep practicing.").2.2.2.2.1
      futurePlanItem (by decide) (by decide)⟩

/-! ## Claim C5 -/

theorem mkPlanItemsFrom_map_sequence (goalId dayNumber nextId : Int)
    (ps : List PlanPayload) :
    (mkPlanItemsFrom goalId dayNumber nextId ps).map (fun it => it.sequence) =
      ps.map (fun p => p.sequence) := by
  induction ps generalizing nextId with
  | nil => rfl
  | cons p ps ih => simp [mkPlanItemsFrom, ih]

theorem mkPlanItemsFrom_map_task (goalId dayNumber nextId : Int)
    (ps : List PlanPayload) :
    (mkPlanItemsFrom goalId dayNumber nextId ps).map (fun it => it.task) =
      ps.map (fun p => p.task) := by
  induction ps generalizing nextId with
  | nil => rfl
  | cons p ps ih => simp [mkPlanItemsFrom, ih]

theorem mkPlanItemsFrom_mem (goalId dayNumber nextId : Int) (ps : List PlanPayload) :
    ∀ it ∈ mkPlanItemsFrom goalId dayNumber nextId ps,
      it.goalId = goalId ∧ it.dayNumber = dayNumber := by
  induction ps generalizing nextId with
  | nil => intro it h; simp [mkPlanItemsFrom] at h
  | cons p ps ih =>
    intro it h
    simp only [mkPlanItemsFrom, List.mem_cons] at h
    rcases h with h | h
    · rw [h]
      exact ⟨rfl, rfl⟩
    · exact ih (nextId + 1) it h

theorem payload_seq_range (ps : List PlanPayload) :
    ∀ c : ℤ, (∀ (i : ℕ) (h : i < ps.length), (ps.get ⟨i, h⟩).sequence = c + i) →
      ps.map (fun p => p.sequence) = (List.range ps.length).map (fun i : ℕ => c + i) := by
  induction ps with
  | nil => intro c _; rfl
  | cons p ps ih =>
    intro c h
    have h0 : p.sequence = c := by
      have := h 0 (by simp)
      simpa using this
    have htail : ∀ (i : ℕ) (hi : i < ps.length), (ps.get ⟨i, hi⟩).sequence = (c + 1) + i := by
      intro i hi
      have hh := h (i + 1) (by simpa using Nat.succ_lt_succ hi)
      rw [show ((p :: ps).get ⟨i + 1, by simpa using Nat.succ_lt_succ hi⟩) = ps.get ⟨i, hi⟩
        from rfl] at hh
      rw [hh]
      push_cast
      ring
    have hrec := ih (c + 1) htail
    simp only [List.map_cons, hrec, List.length_cons, List.range_succ_eq_map,
      List.map_map, h0]
    congr 1
    · simp
    · apply List.map_congr_left
      intro i _
      simp only [Function.comp]
      push_cast
      ring

theorem rewriteFuture_drop (a b : List PlanItemRow) (goalId dayNumber : Int)
    (r : String) (hb : ∀ it ∈ b, it.dayNumber = dayNumber) :
    (rewriteFuturePlanItems (a ++ b) goalId dayNumber r).drop a.length = b := by
  have hmapb : b.map (rewriteItem goalId dayNumber r) = b := by
    have hid : ∀ it ∈ b, rewriteItem goalId dayNumber r it = it := by
      intro it hit
      have hfut : isFutureItem goalId dayNumber it = false := by
        unfold isFutureItem
        simp [hb it hit]
      simp [rewriteItem, hfut]
    calc b.map (rewriteItem goalId dayNumber r) = b.map id := List.map_congr_left hid
      _ = b := List.map_id b
  unfold rewriteFuturePlanItems
  split
  · exact List.drop_left a b
  · rw [List.map_append, List.drop_left' (by simp), hmapb]

theorem runDay_found_planItems (env : RunEnv) (goalId dayNumber : Int) (s : State)
    (goal : GoalRow)
    (hf : s.goals.find? (fun g => decide (g.id = some goalId)) = some goal) :
    (runDay env goalId dayNumber s).1.planItems =
        s.planItems ++ mkPlanItemsFrom goalId dayNumber s.nextPlanId env.plannerPayloads ∨
    (runDay env goalId dayNumber s).1.planItems =
        rewriteFuturePlanItems
          (s.planItems ++ mkPlanItemsFrom goalId dayNumber s.nextPlanId env.plannerPayloads)
          goalId dayNumber (pyStrip env.reflectionResponse) := by
  unfold runDay
  rw [hf]
  dsimp only
  rcases hres : researcherRun env.web { goal with status := GoalStatus.active }
      (mkPlanItemsFrom goalId dayNumber s.nextPlanId env.plannerPayloads) with ⟨res, lg⟩
  cases res with
  | error e =>
    left
    simp [planStage]
  | ok resList =>
    right
    simp [laterStages, planStage]

/-- C5: one `run_day(G, D)` call persists exactly the planner's rows; under
the planner contract (spec-modelled, `agents/planner.py` missing from the
sources) their `sequence` values form the contiguous range `1..k` in list
order, the i-th created row carries the i-th returned task, and every
created row belongs to goal `G` and day `D`. -/
theorem run_day_sequences_contiguous (env : RunEnv) (goalId dayNumber : Int)
    (s : State) (goal : GoalRow)
    (hok : PlannerOk env.plannerPayloads)
    (hf : s.goals.find? (fun g => decide (g.id = some goalId)) = some goal) :
    (runDay env goalId dayNumber s).1.planItems.drop s.planItems.length =
        mkPlanItemsFrom goalId dayNumber s.nextPlanId env.plannerPayloads ∧
    ((runDay env goalId dayNumber s).1.planItems.drop s.planItems.length).map
        (fun it => it.sequence) =
      (List.range env.plannerPayloads.length).map (fun i : ℕ => (1 : ℤ) + i) ∧
    ((runDay env goalId dayNumber s).1.planItems.drop s.planItems.length).map
        (fun it => it.task) =
      env.plannerPayloads.map (fun p => p.task) ∧
    ∀ it ∈ (runDay env goalId dayNumber s).1.planItems.drop s.planItems.length,
      it.goalId = goalId ∧ it.dayNumber = dayNumber := by
  have hdrop : (runDay env goalId dayNumber s).1.planItems.drop s.planItems.length =
      mkPlanItemsFrom goalId dayNumber s.nextPlanId env.plannerPayloads := by
    rcases runDay_found_planItems env goalId dayNumber s goal hf with h | h
    · rw [h]
      exact List.drop_left s.planItems _
    · rw [h]
      exact rewriteFuture_drop _ _ _ _ _
        (fun it hit => (mkPlanItemsFrom_mem goalId dayNumber s.nextPlanId
          env.plannerPayloads it hit).2)
  refine ⟨hdrop, ?_, ?_, ?_⟩
  · rw [hdrop, mkPlanItemsFrom_map_sequence]
    have := payload_seq_range env.plannerPayloads 1
      (fun i h => by rw [hok i h]; ring)
    rw [this]
  · rw [hdrop, mkPlanItemsFrom_map_task]
  · rw [hdrop]
    exact mkPlanItemsFrom_mem goalId dayNumber s.nextPlanId env.plannerPayloads

/-- Closed instance of C5's theorem on the concrete one-goal store. -/
theorem run_day_sequences_contiguous_witness :
    PlannerOk stubRunEnv.plannerPayloads ∧
    exGoalState.goals.find? (fun g => decide (g.id = some 1)) = some exGoalRow ∧
    ((runDay stubRunEnv 1 1 exGoalState).1.planItems.drop
        exGoalState.planItems.length).map (fun it => it.sequence) =
      (List.range stubRunEnv.plannerPayloads.length).map (fun i : ℕ => (1 : ℤ) + i) :=
  have hok : PlannerOk stubRunEnv.plannerPayloads := by
    intro i h
    have hi : i = 0 := by
      have : i < 1 := by simpa [stubRunEnv] using h
      omega
    subst hi
    rfl
  ⟨hok, by decide,
    (run_day_sequences_contiguous stubRunEnv 1 1 exGoalState exGoalRow hok (by decide)).2.1⟩

/-! ## Claim C6 -/

theorem charListLe_iff :
    ∀ as bs : List Char, charListLe as bs = true ↔ ¬ List.Lex (· < ·) bs as := by
  intro as
  induction as with
  | nil =>
    intro bs
    apply iff_of_true
    · rfl
    · exact List.Lex.not_nil_right _ _
  | cons a as ih =>
    intro bs
    cases bs with
    | nil =>
      apply iff_of_false
      · simp [charListLe]
      · intro hnot
        exact hnot List.Lex.nil
    | cons b bs =>
      by_cases hab : a = b
      · subst hab
        rw [show charListLe (a :: as) (a :: bs) = charListLe as bs by
          simp [charListLe]]
        rw [ih bs]
        constructor
        · intro hn hlex
          exact hn (List.Lex.cons_iff.1 hlex)
        · intro hn hlex
          exact hn (List.Lex.cons hlex)
      · rw [show charListLe (a :: as) (b :: bs) = decide (a < b) by
          simp [charListLe, hab]]
        constructor
        · intro hlt hlex
          have ha : a < b := of_decide_eq_true hlt
          cases hlex with
          | cons h => exact absurd rfl hab
          | rel h => exact absurd h (asymm ha)
        · intro hn
          apply decide_eq_true
          rcases lt_trichotomy a b with h | h | h
          · exact h
          · exact absurd h hab
          · exact absurd (List.Lex.rel h) hn

theorem strLeR_iff (a b : String) : strLeR a b ↔ a ≤ b := by
  unfold strLeR strLe
  rw [charListLe_iff]
  constructor
  · intro hn
    rw [← not_lt]
    intro hlt
    exact hn (String.lt_iff_toList_lt.1 hlt)
  · intro hle hlex
    have hba : b < a := String.lt_iff_toList_lt.2 hlex
    exact (not_le.2 hba) hle

instance : IsTrans String strLeR :=
  ⟨fun a b c hab hbc =>
    (strLeR_iff a c).2 (le_trans ((strLeR_iff a b).1 hab) ((strLeR_iff b c).1 hbc))⟩

instance : IsTotal String strLeR :=
  ⟨fun a b => (le_total a b).imp ((strLeR_iff a b).2) ((strLeR_iff b a).2)⟩

instance : IsAntisymm String strLeR :=
  ⟨fun a b hab hba => le_antisymm ((strLeR_iff a b).1 hab) ((strLeR_iff b a).1 hba)⟩

theorem sortStrings_perm (l : List String) : List.Perm (sortStrings l) l :=
  List.perm_insertionSort _ l

theorem sortStrings_sorted (l : List String) :
    (sortStrings l).Sorted (fun a b : String => a ≤ b) :=
  List.Pairwise.imp (fun h => (strLeR_iff _ _).1 h) (List.sorted_insertionSort strLeR l)

theorem missingTokens_nodup (e g : String) : (missingTokens e g).Nodup :=
  List.Nodup.filter _ (List.nodup_dedup _)

theorem missingTokens_toFinset (e g : String) :
    (missingTokens e g).toFinset = (tokens e).toFinset \ (tokens g).toFinset := by
  ext t
  simp [missingTokens, tokenSet]

theorem overlap_card (e g : String) :
    ((tokenSet e).filter (fun t => t ∈ tokens g)).length =
      ((tokens e).toFinset ∩ (tokens g).toFinset).card := by
  have hnd : ((tokenSet e).filter (fun t => t ∈ tokens g)).Nodup :=
    List.Nodup.filter _ (List.nodup_dedup _)
  rw [← List.toFinset_card_of_nodup hnd]
  congr 1
  ext t
  simp [tokenSet]

theorem tokenSet_length (s : String) :
    (tokenSet s).length = (tokens s).toFinset.card := by
  rw [List.card_toFinset]
  rfl

theorem missing_sorted (e g : String) :
    sortStrings (missingTokens e g) =
      ((tokens e).toFinset \ (tokens g).toFinset).sort (fun a b : String => a ≤ b) := by
  have hnd : (sortStrings (missingTokens e g)).Nodup :=
    ((sortStrings_perm _).nodup_iff).2 (missingTokens_nodup e g)
  have hfin : (sortStrings (missingTokens e g)).toFinset =
      (tokens e).toFinset \ (tokens g).toFinset := by
    rw [List.toFinset_eq_of_perm _ _ (sortStrings_perm (missingTokens e g))]
    exact missingTokens_toFinset e g
  have hsorted := sortStrings_sorted (missingTokens e g)
  have h := (List.toFinset_sort (fun a b : String => a ≤ b) hnd).2 hsorted
  rw [hfin] at h
  exact h.symm

/-- C6: `evaluate_answer` agrees pointwise with the spec's description of
`evaluateAnswer` — case-folded whitespace tokenization into sets, overlap
score `|expected ∩ given| / max(1, |expected|)` compared against 0.4, a
fixed success phrase when correct and otherwise the sorted space-joined
missing tokens truncated to 120 characters — and on the spec's worked
example the overlap is `2/3 ≥ 0.4`, so the answer is scored correct. -/
theorem evaluate_answer_matches_spec :
    (∀ expected given, evaluate_answer expected given = evaluateAnswerSpec expected given) ∧
    answerScore "space time continuum" "space time" = 2 / 3 ∧
    evaluate_answer "space time continuum" "space time" = (true, "Great job!") := by
  have hsc : answerScore "space time continuum" "space time" = 2 / 3 := by
    have h1 : ((tokenSet "space time continuum").filter
        (fun t => t ∈ tokens "space time")).length = 2 := by decide
    have h2 : max 1 (tokenSet "space time continuum").length = 3 := by decide
    rw [answerScore, h1, h2]
    norm_num
  refine ⟨?_, hsc, ?_⟩
  · intro e g
    have hscore : answerScore e g =
        ((((tokens e).toFinset ∩ (tokens g).toFinset).card : ℚ) /
          ((max 1 (tokens e).toFinset.card : ℕ) : ℚ)) := by
      rw [answerScore, overlap_card, tokenSet_length]
    simp only [evaluate_answer, evaluateAnswerSpec]
    rw [hscore, missing_sorted]
  · have hc : decide (answerScore "space time continuum" "space time" ≥ (0.4 : ℚ)) = true := by
      rw [hsc]
      exact decide_eq_true (by norm_num)
    simp only [evaluate_answer, hc]
    rfl

/-! ## State-effect lemmas for the reachability invariants -/

theorem getGoal_state (goalId : Int) (s : State) : (getGoal goalId s).1 = s := by
  unfold getGoal
  cases s.goals.find? (fun g => decide (g.id = some goalId)) <;> rfl

theorem getPlan_state (goalId : Int) (dayNumber : Option Int) (s : State) :
    (getPlan goalId dayNumber s).1 = s := rfl

theorem getQuizForDay_state (goalId dayNumber : Int) (s : State) :
    (getQuizForDay goalId dayNumber s).1 = s := rfl

theorem runDay_effects (env : RunEnv) (goalId dayNumber : Int) (s : State) :
    (runDay env goalId dayNumber s).1.nextGoalId = s.nextGoalId ∧
    ((runDay env goalId dayNumber s).1.goals = s.goals ∨
      (runDay env goalId dayNumber s).1.goals =
        s.goals.map (fun g =>
          if g.id = some goalId then { g with status := GoalStatus.active } else g)) ∧
    ((runDay env goalId dayNumber s).1.quizzes = s.quizzes ∨
      (runDay env goalId dayNumber s).1.quizzes =
        s.quizzes ++ mkQuizItemsFrom goalId dayNumber s.nextQuizId env.quizPayloads) := by
  unfold runDay
  cases hf : s.goals.find? (fun g => decide (g.id = some goalId)) with
  | none => exact ⟨rfl, Or.inl rfl, Or.inl rfl⟩
  | some goal =>
    dsimp only
    rcases hres : researcherRun env.web { goal with status := GoalStatus.active }
        (mkPlanItemsFrom goalId dayNumber s.nextPlanId env.plannerPayloads) with ⟨res, lg⟩
    cases res with
    | error e => exact ⟨rfl, Or.inr rfl, Or.inl rfl⟩
    | ok resList =>
      refine ⟨?_, Or.inr ?_, Or.inr ?_⟩ <;> simp [laterStages, planStage]

theorem submit_effects (quizId : Int) (answer : String) (s : State) :
    (submitQuizAnswer quizId answer s).1.goals = s.goals ∧
    (submitQuizAnswer quizId answer s).1.nextGoalId = s.nextGoalId ∧
    ((submitQuizAnswer quizId answer s).1.quizzes = s.quizzes ∨
      ∃ q, s.quizzes.find? (fun r => decide (r.id = some quizId)) = some q ∧
        (submitQuizAnswer quizId answer s).1.quizzes =
          s.quizzes.map (fun r =>
            if r.id = some quizId then
              { q with
                learnerAnswer := some answer
                isCorrect := some (evaluate_answer q.answer answer).1
                feedback := some (evaluate_answer q.answer answer).2
                status := QuizStatus.answered }
            else r)) := by
  unfold submitQuizAnswer
  cases hf : s.quizzes.find? (fun q => decide (q.id = some quizId)) with
  | none => exact ⟨rfl, rfl, Or.inl rfl⟩
  | some q => exact ⟨rfl, rfl, Or.inr ⟨q, rfl, rfl⟩⟩

theorem mkQuizItemsFrom_mem (goalId dayNumber nextId : Int) (ps : List QuizPayload) :
    ∀ q ∈ mkQuizItemsFrom goalId dayNumber nextId ps,
      q.status = QuizStatus.delivered ∧ q.learnerAnswer = none := by
  induction ps generalizing nextId with
  | nil => intro q h; simp [mkQuizItemsFrom] at h
  | cons p ps ih =>
    intro q h
    simp only [mkQuizItemsFrom, List.mem_cons] at h
    rcases h with h | h
    · rw [h]
      exact ⟨rfl, rfl⟩
    · exact ih (nextId + 1) q h

theorem goalInv_step {a b : State} (hstep : Step a b) (h : GoalInv a) : GoalInv b := by
  obtain ⟨hA, hB, hC⟩ := h
  cases hstep with
  | create title description learnerProfile targetDays =>
    have hgoals : (createGoal title description learnerProfile targetDays a).1.goals =
        a.goals ++ [(createGoal title description learnerProfile targetDays a).2] := rfl
    have hnext : (createGoal title description learnerProfile targetDays a).1.nextGoalId =
        a.nextGoalId + 1 := rfl
    have hrowid : (createGoal title description learnerProfile targetDays a).2.id =
        some a.nextGoalId := rfl
    have hrowst : (createGoal title description learnerProfile targetDays a).2.status =
        GoalStatus.new := rfl
    refine ⟨?_, ?_, ?_⟩
    · rw [hgoals]
      intro g hg
      rcases List.mem_append.1 hg with hmem | hmem
      · exact hA g hmem
      · rw [List.mem_singleton.1 hmem, hrowst]
        exact Or.inl rfl
    · rw [hgoals, List.map_append, List.nodup_append]
      refine ⟨hB, List.nodup_singleton _, ?_⟩
      intro x hx hmem
      rcases List.mem_map.1 hx with ⟨g, hg, rfl⟩
      rcases hC g hg with ⟨n, hn, hlt⟩
      simp only [List.map_cons, List.map_nil] at hmem
      have hid := List.mem_singleton.1 hmem
      rw [hn, hrowid] at hid
      exact absurd (Option.some.inj hid) (by omega)
    · rw [hgoals, hnext]
      intro g hg
      rcases List.mem_append.1 hg with hmem | hmem
      · rcases hC g hmem with ⟨n, hn, hlt⟩
        exact ⟨n, hn, by omega⟩
      · rw [List.mem_singleton.1 hmem]
        exact ⟨a.nextGoalId, hrowid, by omega⟩
  | read goalId =>
    rw [getGoal_state]
    exact ⟨hA, hB, hC⟩
  | readPlan goalId dayNumber =>
    exact ⟨hA, hB, hC⟩
  | readQuiz goalId dayNumber =>
    exact ⟨hA, hB, hC⟩
  | run env goalId dayNumber =>
    obtain ⟨hng, hG, _⟩ := runDay_effects env goalId dayNumber a
    rcases hG with hG | hG
    · rw [GoalInv, hG, hng]
      exact ⟨hA, hB, hC⟩
    · refine ⟨?_, ?_, ?_⟩
      · intro g' hg'
        rw [hG] at hg'
        rcases List.mem_map.1 hg' with ⟨g, hg, rfl⟩
        split
        · exact Or.inr rfl
        · exact hA g hg
      · rw [hG, List.map_map]
        have hcomp : ((fun g : GoalRow => g.id) ∘ fun g : GoalRow =>
            if g.id = some goalId then { g with status := GoalStatus.active } else g) =
            fun g : GoalRow => g.id := by
          funext g
          simp only [Function.comp]
          split <;> rfl
        rw [hcomp]
        exact hB
      · intro g' hg'
        rw [hG] at hg'
        rcases List.mem_map.1 hg' with ⟨g, hg, rfl⟩
        rcases hC g hg with ⟨n, hn, hlt⟩
        refine ⟨n, ?_, by rw [hng]; exact hlt⟩
        split <;> exact hn
  | submit quizId answer =>
    obtain ⟨hgo, hng, _⟩ := submit_effects quizId answer a
    rw [GoalInv, hgo, hng]
    exact ⟨hA, hB, hC⟩

theorem goalInv_reach : ∀ s, Reach s → GoalInv s := by
  intro s0 hs
  induction hs with
  | init => refine ⟨?_, ?_, ?_⟩ <;> simp [initialState]
  | step hr hstep ih => exact goalInv_step hstep ih

theorem quizInv_step {a b : State} (hstep : Step a b) (h : QuizInv a) : QuizInv b := by
  cases hstep with
  | create title description learnerProfile targetDays =>
    exact h
  | read goalId =>
    rw [getGoal_state]
    exact h
  | readPlan goalId dayNumber =>
    exact h
  | readQuiz goalId dayNumber =>
    exact h
  | run env goalId dayNumber =>
    obtain ⟨_, _, hQ⟩ := runDay_effects env goalId dayNumber a
    rcases hQ with hQ | hQ
    · rw [QuizInv, hQ]
      exact h
    · intro q hq
      rw [hQ] at hq
      rcases List.mem_append.1 hq with hmem | hmem
      · exact h q hmem
      · obtain ⟨hst, hla⟩ := mkQuizItemsFrom_mem goalId dayNumber a.nextQuizId
          env.quizPayloads q hmem
        refine ⟨?_, Or.inl hst⟩
        rw [hst, hla]
        simp
  | submit quizId answer =>
    obtain ⟨_, _, hQ⟩ := submit_effects quizId answer a
    rcases hQ with hQ | ⟨q0, hfind, hQ⟩
    · rw [QuizInv, hQ]
      exact h
    · intro q hq
      rw [hQ] at hq
      rcases List.mem_map.1 hq with ⟨r, hr, rfl⟩
      split
      · refine ⟨?_, Or.inr rfl⟩
        simp
      · exact h r hr

theorem quizInv_reach : ∀ s, Reach s → QuizInv s := by
  intro s0 hs
  induction hs with
  | init => intro q hq; simp [initialState] at hq
  | step hr hstep ih => exact quizInv_step hstep ih

/-! ## Claim C3 -/

/-- C3: in every reachable state no goal is `complete` (the code only ever
assigns `new` at creation and `active` in `run_day`), and across every
orchestrator operation the status of a stored goal never moves backward
along `new → planning → active → complete`; in particular no operation
demotes a goal, and the unconditional `status = active` assignment in
`run_day` only ever moves a goal forward. -/
theorem goal_status_never_regresses :
    ∀ s, Reach s →
      (∀ g ∈ s.goals, g.status ≠ GoalStatus.complete) ∧
      ∀ s', Step s s' → ∀ g ∈ s.goals, ∀ g' ∈ s'.goals, g'.id = g.id →
        statusRank g.status ≤ statusRank g'.status := by
  intro s hs
  obtain ⟨hA, hB, hC⟩ := goalInv_reach s hs
  have hinj : ∀ x ∈ s.goals, ∀ y ∈ s.goals, x.id = y.id → x = y :=
    List.inj_on_of_nodup_map hB
  constructor
  · intro g hg
    rcases hA g hg with h | h <;> rw [h] <;> decide
  · intro s' hstep g hg g' hg' hid
    cases hstep with
    | create title description learnerProfile targetDays s =>
      rcases List.mem_append.1 hg' with h | h
      · rw [hinj g' h g hg hid]
      · rcases hC g hg with ⟨n, hn, hlt⟩
        rw [List.mem_singleton.1 h] at hid
        rw [hn] at hid
        exact absurd (Option.some.inj hid) (by omega)
    | read goalId s =>
      rw [getGoal_state] at hg'
      rw [hinj g' hg' g hg hid]
    | readPlan goalId dayNumber s =>
      rw [hinj g' hg' g hg hid]
    | readQuiz goalId dayNumber s =>
      rw [hinj g' hg' g hg hid]
    | run env goalId dayNumber s =>
      obtain ⟨_, hG, _⟩ := runDay_effects env goalId dayNumber s
      rcases hG with hG | hG
      · rw [hG] at hg'
        rw [hinj g' hg' g hg hid]
      · rw [hG] at hg'
        rcases List.mem_map.1 hg' with ⟨h0, hh0, rfl⟩
        have hids : (if h0.id = some goalId then
            { h0 with status := GoalStatus.active } else h0).id = h0.id := by
          split <;> rfl
        have hg0 : h0 = g := hinj h0 hh0 g hg (hids ▸ hid)
        subst hg0
        split
        · rcases hA h0 hh0 with h | h <;> simp [statusRank, h]
        · exact le_refl _
    | submit quizId answer s =>
      obtain ⟨hgo, _, _⟩ := submit_effects quizId answer s
      rw [hgo] at hg'
      rw [hinj g' hg' g hg hid]

/-- Closed instance of C3's theorem: creating a goal and then running day 1
moves its status from `new` to `active`, a forward move. -/
theorem goal_status_never_regresses_witness :
    exGoalRow ∈ exGoalState.goals ∧
    { exGoalRow with status := GoalStatus.active } ∈ exRunState.goals ∧
    statusRank exGoalRow.status ≤
      statusRank ({ exGoalRow with status := GoalStatus.active }).status := by
  have hreach : Reach exGoalState :=
    Reach.step Reach.init (Step.create "General Relativity" none none none initialState)
  refine ⟨by decide, by decide, ?_⟩
  exact (goal_status_never_regresses exGoalState hreach).2 exRunState
    (Step.run stubRunEnv 1 1 exGoalState) exGoalRow (by decide)
    { exGoalRow with status := GoalStatus.active } (by decide) rfl

/-! ## Claim C9 -/

/-- C9: submitting an answer to a stored QuizItem updates exactly that row,
setting `learner_answer` to the submitted text, `is_correct` and `feedback`
to `evaluate_answer(stored answer, submitted text)`, and `status` to
`answered`, in one step; the new field values depend only on the stored
generation-time answer and the submission, so a re-submission overwrites all
three fields (last-writer-wins); and in every reachable state a quiz row is
`answered` exactly when a learner answer is stored (rows are otherwise
`delivered`). -/
theorem submit_quiz_answer_spec :
    ∀ s, Reach s →
      (∀ q ∈ s.quizzes,
        (q.status = QuizStatus.answered ↔ q.learnerAnswer ≠ none) ∧
          (q.status = QuizStatus.delivered ∨ q.status = QuizStatus.answered)) ∧
      ∀ quizId answer q,
        s.quizzes.find? (fun r => decide (r.id = some quizId)) = some q →
        submitQuizAnswer quizId answer s =
          ({ s with
              quizzes := s.quizzes.map (fun r =>
                if r.id = some quizId then
                  { q with
                    learnerAnswer := some answer
                    isCorrect := some (evaluate_answer q.answer answer).1
                    feedback := some (evaluate_answer q.answer answer).2
                    status := QuizStatus.answered }
                else r) },
           .ok { q with
                  learnerAnswer := some answer
                  isCorrect := some (evaluate_answer q.answer answer).1
                  feedback := some (evaluate_answer q.answer answer).2
                  status := QuizStatus.answered }) := by
  intro s hs
  refine ⟨quizInv_reach s hs, ?_⟩
  intro quizId answer q hf
  unfold submitQuizAnswer
  rw [hf]

/-- Closed instance of C9's theorem: answering the quiz delivered by the
concrete day-1 run marks it answered and stores the evaluation verdict. -/
theorem submit_quiz_answer_spec_witness :
    exRunState.quizzes.find? (fun r => decide (r.id = some 1)) = some exQuizRow ∧
    submitQuizAnswer 1 "the space time continuum" exRunState =
      ({ exRunState with
          quizzes := exRunState.quizzes.map (fun r =>
            if r.id = some 1 then
              { exQuizRow with
                learnerAnswer := some "the space time continuum"
                isCorrect := some (evaluate_answer exQuizRow.answer "the space time continuum").1
                feedback := some (evaluate_answer exQuizRow.answer "the space time continuum").2
                status := QuizStatus.answered }
            else r) },
       .ok { exQuizRow with
              learnerAnswer := some "the space time continuum"
              isCorrect := some (evaluate_answer exQuizRow.answer "the space time continuum").1
              feedback := some (evaluate_answer exQuizRow.answer "the space time continuum").2
              status := QuizStatus.answered }) := by
  have hreach : Reach exRunState :=
    Reach.step
      (Reach.step Reach.init (Step.create "General Relativity" none none none initialState))
      (Step.run stubRunEnv 1 1 exGoalState)
  exact ⟨by decide,
    (submit_quiz_answer_spec exRunState hreach).2 1 "the space time continuum" exQuizRow
      (by decide)⟩

end AgentSmith
